import Mathlib

/-!
Verification development for the open-brilliant-animation physics chat
application.

The definitions below are a shallow embedding of the repository's code:

* the chat API route (`POST` in `src/unnamed/part_002`, four-module
  version): the greedy brace extraction applied to the external model's
  response text, the JSON parser it feeds, the keyword fallback
  classifier applied to the prompt, and the outer error handler;
* the chat component's default handling (`handleSend` in
  `src/unnamed/part_001`), which applies documented defaults through a
  JavaScript logical-or;
* the motion evaluators of the animation components (spring in
  `src/unnamed/part_000`, pendulum in `PendulumMotion.tsx`, wave in
  `WaveVibration.tsx`, projectile in the second half of `Chat.tsx`) and
  the projectile tick loop.

Numbers that flow through the classifier layer are modelled as rationals;
the physics formulas are modelled over the reals.
-/

namespace OBA

/-- A JSON value, as produced by the embedded model of ECMAScript
`JSON.parse` and consumed by the route and the chat component. -/
inductive Json where
  | null : Json
  | bool : Bool → Json
  | num : ℚ → Json
  | str : String → Json
  | arr : List Json → Json
  | obj : List (String × Json) → Json

/-- Property lookup on a JSON value: a key's value in an object, nothing
on any other kind of value (matching JavaScript member access on
non-objects being undefined for our purposes). -/
def jsonLookup (j : Json) (key : String) : Option Json :=
  match j with
  | Json.obj fields => (fields.find? (fun f => f.1 == key)).map (fun f => f.2)
  | _ => none

/-! ## String utilities: `toLowerCase` and `includes` -/

/-- ASCII lower-casing of one character, as `Char.toLower` does and as
JavaScript `toLowerCase` does on the ASCII prompts the classifier
keywords are drawn from. -/
def lowerStr (s : String) : String :=
  (s.toList.map Char.toLower).asString

/-- Whether `needle` occurs at the start of `hay`. -/
def isPrefixL : List Char → List Char → Bool
  | [], _ => true
  | _ :: _, [] => false
  | a :: as, b :: bs => a == b && isPrefixL as bs

/-- Whether `needle` occurs anywhere in `hay`: JavaScript
`String.prototype.includes` over character lists. -/
def containsSub : List Char → List Char → Bool
  | [], needle => isPrefixL needle []
  | h :: t, needle => isPrefixL needle (h :: t) || containsSub t needle

/-- JavaScript `hay.includes(needle)`. -/
def strIncludes (hay needle : String) : Bool :=
  containsSub hay.toList needle.toList

/-! ## The keyword fallback classifier (route `POST`, catch branch) -/

/-- Condition `isProjectileMotion` of the route's fallback, verbatim from
the source: the argument is the lower-cased prompt. -/
def isProjectileMotionPrompt (lp : String) : Bool :=
  strIncludes lp "projectile" ||
  strIncludes lp "ballistic" ||
  strIncludes lp "trajectory" ||
  strIncludes lp "throwing" ||
  strIncludes lp "launch" ||
  strIncludes lp "parabolic" ||
  (strIncludes lp "motion" && (strIncludes lp "ball" || strIncludes lp "object"))

/-- Condition `isSpringOscillation` of the route's fallback. -/
def isSpringOscillationPrompt (lp : String) : Bool :=
  strIncludes lp "spring" ||
  strIncludes lp "oscillation" ||
  strIncludes lp "harmonic" ||
  strIncludes lp "hooke" ||
  strIncludes lp "vibration" ||
  strIncludes lp "mass-spring" ||
  strIncludes lp "damping"

/-- Condition `isPendulumMotion` of the route's fallback. -/
def isPendulumMotionPrompt (lp : String) : Bool :=
  strIncludes lp "pendulum" ||
  strIncludes lp "swinging" ||
  strIncludes lp "swing" ||
  strIncludes lp "simple pendulum" ||
  strIncludes lp "bob"

/-- Condition `isWaveVibration` of the route's fallback. -/
def isWaveVibrationPrompt (lp : String) : Bool :=
  strIncludes lp "wave" ||
  strIncludes lp "vibration" ||
  strIncludes lp "transverse" ||
  strIncludes lp "longitudinal" ||
  strIncludes lp "propagation" ||
  strIncludes lp "frequency" ||
  strIncludes lp "wavelength" ||
  strIncludes lp "amplitude"

/-- The fallback response object for a projectile prompt. -/
def projectileFallbackJson : Json :=
  Json.obj
    [("module", Json.str "ProjectileMotion"),
     ("inputs", Json.obj
        [("velocity", Json.num 50),
         ("angle", Json.num 45),
         ("gravity", Json.num 9.8),
         ("timeStep", Json.num 0.1)]),
     ("explanation", Json.str "Here's a projectile motion animation with default parameters. The ball follows a parabolic trajectory under gravity.")]

/-- The fallback response object for a spring prompt. -/
def springFallbackJson : Json :=
  Json.obj
    [("module", Json.str "SpringOscillation"),
     ("inputs", Json.obj
        [("mass", Json.num 1),
         ("springConstant", Json.num 10),
         ("amplitude", Json.num 1),
         ("damping", Json.num 0),
         ("timeStep", Json.num 0.05)]),
     ("explanation", Json.str "Here's a spring oscillation animation with default parameters. The mass-spring system demonstrates simple harmonic motion following Hooke's law.")]

/-- The fallback response object for a pendulum prompt. -/
def pendulumFallbackJson : Json :=
  Json.obj
    [("module", Json.str "PendulumMotion"),
     ("inputs", Json.obj
        [("length", Json.num 1),
         ("mass", Json.num 1),
         ("initialAngle", Json.num 30),
         ("gravity", Json.num 9.8),
         ("damping", Json.num 0),
         ("timeStep", Json.num 0.05)]),
     ("explanation", Json.str "Here's a pendulum motion animation with default parameters. The pendulum swings back and forth under gravity, demonstrating periodic motion.")]

/-- The fallback response object for a wave prompt. -/
def waveFallbackJson : Json :=
  Json.obj
    [("module", Json.str "WaveVibration"),
     ("inputs", Json.obj
        [("frequency", Json.num 1),
         ("amplitude", Json.num 1),
         ("wavelength", Json.num 2),
         ("damping", Json.num 0),
         ("timeStep", Json.num 0.05),
         ("waveType", Json.str "transverse")]),
     ("explanation", Json.str "Here's a wave animation with default parameters. The wave propagates along a string, demonstrating wave motion and particle displacement.")]

/-- The fallback response object when no keyword category matches. -/
def noMatchFallbackJson : Json :=
  Json.obj
    [("module", Json.null),
     ("inputs", Json.obj []),
     ("explanation", Json.str "I can help you with physics questions! For projectile motion animations, try asking: 'Show me projectile motion with velocity 15 m/s and angle 60°'. For spring oscillations, try: 'Show me a spring with mass 2kg and spring constant 10 N/m'. For pendulum motion, try: 'Show me a pendulum with length 2m and mass 1kg'. For wave animations, try: 'Show me a wave with frequency 2Hz and wavelength 1m'. For other physics topics, just ask your question and I'll provide a helpful explanation.")]

/-- The route's keyword fallback: lower-case the prompt and take the
first matching category of the if/else chain, in source order. -/
def fallbackClassify (prompt : String) : Json :=
  if isProjectileMotionPrompt (lowerStr prompt) then projectileFallbackJson
  else if isSpringOscillationPrompt (lowerStr prompt) then springFallbackJson
  else if isPendulumMotionPrompt (lowerStr prompt) then pendulumFallbackJson
  else if isWaveVibrationPrompt (lowerStr prompt) then waveFallbackJson
  else noMatchFallbackJson

/-! ## Brace extraction and the JSON parser

The route extracts `text.match(/\x7b[\s\S]*\x7d/)[0]` — the substring
running from the first opening brace to the last closing brace of the
whole text (the quantifier is greedy) — and hands it to `JSON.parse`.
-/

/-- Index of the first occurrence of `c`, if any. -/
def firstIdxOf (c : Char) : List Char → Option Nat
  | [] => none
  | h :: t =>
    if h == c then some 0
    else (firstIdxOf c t).map (fun i => i + 1)

/-- Index of the last occurrence of `c`, if any. -/
def lastIdxOf (c : Char) (s : List Char) : Option Nat :=
  match firstIdxOf c s.reverse with
  | some i => some (s.length - 1 - i)
  | none => none

/-- The substring matched by the greedy regular expression: from the
first opening brace through the last closing brace, when the latter
comes after the former; otherwise no match. -/
def extractBracesMatch (s : List Char) : Option (List Char) :=
  match firstIdxOf '{' s, lastIdxOf '}' s with
  | some i, some j => if i < j then some ((s.drop i).take (j - i + 1)) else none
  | _, _ => none

/-- JSON whitespace. -/
def isWsChar (c : Char) : Bool :=
  c == ' ' || c == '\t' || c == '\n' || c == '\r'

/-- Drop leading JSON whitespace. -/
def skipWs : List Char → List Char
  | [] => []
  | c :: t => if isWsChar c then skipWs t else c :: t

/-- The value of a list of decimal digit values read left to right. -/
def digitsToNat (ds : List Nat) : Nat :=
  ds.foldl (fun a d => a * 10 + d) 0

/-- Longest prefix of decimal digits, as digit values, with the rest. -/
def takeDigits : List Char → List Nat × List Char
  | [] => ([], [])
  | c :: t =>
    if c.isDigit then
      let p := takeDigits t
      ((c.toNat - 48) :: p.1, p.2)
    else ([], c :: t)

/-- Integer part of a JSON number: `0`, or a nonzero digit followed by
digits (a leading zero may not be followed by another digit). -/
def parseIntPart : List Char → Option (Nat × List Char)
  | '0' :: c :: t => if c.isDigit then none else some (0, c :: t)
  | ['0'] => some (0, [])
  | c :: t =>
    if c.isDigit then
      let p := takeDigits t
      some (digitsToNat ((c.toNat - 48) :: p.1), p.2)
    else none
  | [] => none

/-- Optional fractional part: digit value, number of digits, rest. -/
def parseFracPart : List Char → Option (Nat × Nat × List Char)
  | '.' :: t =>
    let p := takeDigits t
    if p.1.isEmpty then none else some (digitsToNat p.1, p.1.length, p.2)
  | s => some (0, 0, s)

/-- Optional exponent part: signed exponent, rest. -/
def parseExpPart : List Char → Option (ℤ × List Char)
  | c :: t =>
    if c == 'e' || c == 'E' then
      match t with
      | '+' :: u =>
        let p := takeDigits u
        if p.1.isEmpty then none else some ((digitsToNat p.1 : ℤ), p.2)
      | '-' :: u =>
        let p := takeDigits u
        if p.1.isEmpty then none else some (-(digitsToNat p.1 : ℤ), p.2)
      | u =>
        let p := takeDigits u
        if p.1.isEmpty then none else some ((digitsToNat p.1 : ℤ), p.2)
    else some (0, c :: t)
  | [] => some (0, [])

/-- A JSON number, as an exact rational. -/
def parseNumber (s : List Char) : Option (ℚ × List Char) := do
  let (neg, s1) := match s with
    | '-' :: t => (true, t)
    | _ => (false, s)
  let (ip, s2) ← parseIntPart s1
  let (fv, fl, s3) ← parseFracPart s2
  let (ex, s4) ← parseExpPart s3
  let mant : ℚ := (ip : ℚ) + (fv : ℚ) / (10 : ℚ) ^ fl
  pure ((if neg then -mant else mant) * (10 : ℚ) ^ ex, s4)

/-- A single-character JSON string escape. -/
def escChar (c : Char) : Option Char :=
  if c == '\"' then some '\"'
  else if c == '\\' then some '\\'
  else if c == '/' then some '/'
  else if c == 'b' then some (Char.ofNat 8)
  else if c == 'f' then some (Char.ofNat 12)
  else if c == 'n' then some '\n'
  else if c == 'r' then some '\r'
  else if c == 't' then some '\t'
  else none

/-- Value of one hexadecimal digit. -/
def hexVal (c : Char) : Option Nat :=
  if '0' ≤ c && c ≤ '9' then some (c.toNat - 48)
  else if 'a' ≤ c && c ≤ 'f' then some (c.toNat - 87)
  else if 'A' ≤ c && c ≤ 'F' then some (c.toNat - 55)
  else none

/-- Body of a JSON string after the opening quote: the decoded
characters and the rest after the closing quote. Control characters are
refused, escapes are decoded. -/
def parseStringBody : List Char → Option (List Char × List Char)
  | [] => none
  | '\"' :: t => some ([], t)
  | '\\' :: 'u' :: a :: b :: c :: d :: t => do
    let ha ← hexVal a
    let hb ← hexVal b
    let hc ← hexVal c
    let hd ← hexVal d
    let p ← parseStringBody t
    pure (Char.ofNat (((ha * 16 + hb) * 16 + hc) * 16 + hd) :: p.1, p.2)
  | '\\' :: e :: t => do
    let c ← escChar e
    let p ← parseStringBody t
    pure (c :: p.1, p.2)
  | c :: t =>
    if c.toNat < 32 then none
    else (parseStringBody t).map (fun p => (c :: p.1, p.2))

mutual

/-- A JSON value, fuel-bounded recursive descent. -/
def parseValue : Nat → List Char → Option (Json × List Char)
  | 0, _ => none
  | Nat.succ fuel, s =>
    match skipWs s with
    | 'n' :: 'u' :: 'l' :: 'l' :: t => some (Json.null, t)
    | 't' :: 'r' :: 'u' :: 'e' :: t => some (Json.bool true, t)
    | 'f' :: 'a' :: 'l' :: 's' :: 'e' :: t => some (Json.bool false, t)
    | '\"' :: t => (parseStringBody t).map (fun p => (Json.str p.1.asString, p.2))
    | '[' :: t =>
      (match skipWs t with
       | ']' :: r => some (Json.arr [], r)
       | u => parseItems fuel u [])
    | '{' :: t =>
      (match skipWs t with
       | '}' :: r => some (Json.obj [], r)
       | u => parseFields fuel u [])
    | u => (parseNumber u).map (fun p => (Json.num p.1, p.2))

/-- Comma-separated array items up to the closing bracket. -/
def parseItems : Nat → List Char → List Json → Option (Json × List Char)
  | 0, _, _ => none
  | Nat.succ fuel, s, acc => do
    let (v, r) ← parseValue fuel s
    match skipWs r with
    | ',' :: r2 => parseItems fuel (skipWs r2) (v :: acc)
    | ']' :: r2 => some (Json.arr (v :: acc).reverse, r2)
    | _ => none

/-- Comma-separated object fields up to the closing brace. -/
def parseFields : Nat → List Char → List (String × Json) → Option (Json × List Char)
  | 0, _, _ => none
  | Nat.succ fuel, s, acc =>
    match s with
    | '\"' :: t => do
      let (key, r) ← parseStringBody t
      match skipWs r with
      | ':' :: r2 => do
        let (v, r3) ← parseValue fuel (skipWs r2)
        match skipWs r3 with
        | ',' :: r4 => parseFields fuel (skipWs r4) ((key.asString, v) :: acc)
        | '}' :: r4 => some (Json.obj ((key.asString, v) :: acc).reverse, r4)
        | _ => none
      | _ => none
    | _ => none

end

/-- ECMAScript `JSON.parse`: one value, with only whitespace allowed
after it. -/
def jsonParse (s : List Char) : Option Json :=
  match parseValue (s.length + 1) s with
  | some (v, rest) => if (skipWs rest).isEmpty then some v else none
  | none => none

/-! ## The chat API route -/

/-- The inner try of the route: extract the greedy brace match from the
model's text and `JSON.parse` it; `none` when there is no match or the
parse throws (both are caught by the same catch, which runs the keyword
fallback). -/
def parsePipeline (text : String) : Option Json :=
  match extractBracesMatch text.toList with
  | some sub => jsonParse sub
  | none => none

/-- The response body of the outer catch of the route. -/
def errorResponseJson : Json :=
  Json.obj
    [("module", Json.null),
     ("inputs", Json.obj []),
     ("explanation", Json.str "Error processing request.")]

/-- The route handler, as a function of the prompt and of the outcome of
the awaited external model call: a rejection reaches the outer catch
(status 500, fixed error body); a returned text is fed to
`parsePipeline`, whose failure triggers the keyword fallback; whatever
JSON value the pipeline produces is returned as-is with status 200. -/
def POST (prompt : String) (ext : Except Unit String) : Nat × Json :=
  match ext with
  | Except.error _ => (500, errorResponseJson)
  | Except.ok text =>
    match parsePipeline text with
    | some d => (200, d)
    | none => (200, fallbackClassify prompt)

/-! ## Chat component: module data and defaults (`handleSend`) -/

/-- JavaScript truthiness of a JSON value (the classifier layer carries
no NaN, so a number is falsy exactly when it is zero). -/
def jsTruthy : Json → Bool
  | Json.null => false
  | Json.bool b => b
  | Json.num q => !(q == 0)
  | Json.str s => !(s == "")
  | Json.arr _ => true
  | Json.obj _ => true

/-- JavaScript `x || d` for an optionally-present value `x`: the default
is taken when the field is absent or falsy. -/
def jsOr (x : Option Json) (d : Json) : Json :=
  match x with
  | some v => if jsTruthy v then v else d
  | none => d

/-- Field lookup `data.inputs?.name` on the route's response body. -/
def inputField (data : Json) (name : String) : Option Json :=
  (jsonLookup data "inputs").bind (fun j => jsonLookup j name)

/-- JavaScript `data.module === name`. -/
def isModule (data : Json) (name : String) : Bool :=
  match jsonLookup data "module" with
  | some (Json.str s) => s == name
  | _ => false

/-- The `moduleData` record `handleSend` passes to the animation
components. -/
structure ModuleData where
  module : String
  inputs : List (String × Json)

/-- Lookup of one input of a `ModuleData`. -/
def lookupInput (md : ModuleData) (name : String) : Option Json :=
  (md.inputs.find? (fun f => f.1 == name)).map (fun f => f.2)

/-- The module-data branch of `handleSend`: which animation (if any) is
mounted and with which inputs, defaults applied through `||`. -/
def handleSendModuleData (data : Json) : Option ModuleData :=
  if isModule data "ProjectileMotion" then
    some ⟨"ProjectileMotion",
      [("velocity", jsOr (inputField data "velocity") (Json.num 50)),
       ("angle", jsOr (inputField data "angle") (Json.num 45)),
       ("gravity", jsOr (inputField data "gravity") (Json.num 9.8)),
       ("timeStep", jsOr (inputField data "timeStep") (Json.num 0.1))]⟩
  else if isModule data "SpringOscillation" then
    some ⟨"SpringOscillation",
      [("mass", jsOr (inputField data "mass") (Json.num 1)),
       ("springConstant", jsOr (inputField data "springConstant") (Json.num 10)),
       ("amplitude", jsOr (inputField data "amplitude") (Json.num 1)),
       ("damping", jsOr (inputField data "damping") (Json.num 0)),
       ("timeStep", jsOr (inputField data "timeStep") (Json.num 0.05))]⟩
  else if isModule data "PendulumMotion" then
    some ⟨"PendulumMotion",
      [("length", jsOr (inputField data "length") (Json.num 1)),
       ("mass", jsOr (inputField data "mass") (Json.num 1)),
       ("initialAngle", jsOr (inputField data "initialAngle") (Json.num 30)),
       ("gravity", jsOr (inputField data "gravity") (Json.num 9.8)),
       ("damping", jsOr (inputField data "damping") (Json.num 0)),
       ("timeStep", jsOr (inputField data "timeStep") (Json.num 0.05))]⟩
  else if isModule data "WaveVibration" then
    some ⟨"WaveVibration",
      [("frequency", jsOr (inputField data "frequency") (Json.num 1)),
       ("amplitude", jsOr (inputField data "amplitude") (Json.num 1)),
       ("wavelength", jsOr (inputField data "wavelength") (Json.num 2)),
       ("damping", jsOr (inputField data "damping") (Json.num 0)),
       ("timeStep", jsOr (inputField data "timeStep") (Json.num 0.05)),
       ("waveType", jsOr (inputField data "waveType") (Json.str "transverse"))]⟩
  else none

/-! ## Specification-side fallback classifier

A second definition of the keyword fallback following the specification's
words: ordered keyword sets, the first matching category in the fixed
order Projectile, Spring, Pendulum, Wave. It is compared with the
source-derived `fallbackClassify`.
-/

/-- The specification's four fallback categories. -/
inductive FallbackCategory where
  | projectile : FallbackCategory
  | spring : FallbackCategory
  | pendulum : FallbackCategory
  | wave : FallbackCategory
deriving DecidableEq

/-- The specification's keyword set of each category. -/
def specKeywords : FallbackCategory → List String
  | FallbackCategory.projectile =>
      ["projectile", "ballistic", "trajectory", "throwing", "launch", "parabolic"]
  | FallbackCategory.spring =>
      ["spring", "oscillation", "harmonic", "hooke", "vibration", "mass-spring", "damping"]
  | FallbackCategory.pendulum =>
      ["pendulum", "swinging", "swing", "bob"]
  | FallbackCategory.wave =>
      ["wave", "vibration", "transverse", "longitudinal", "propagation",
       "frequency", "wavelength", "amplitude"]

/-- Whether a lower-cased prompt matches a category per the
specification: it contains one of the category's keywords, with the
projectile category also matching on "motion" plus "ball" or "object". -/
def specMatches (lp : String) : FallbackCategory → Bool
  | FallbackCategory.projectile =>
      (specKeywords FallbackCategory.projectile).any (fun k => strIncludes lp k) ||
      (strIncludes lp "motion" && (strIncludes lp "ball" || strIncludes lp "object"))
  | c => (specKeywords c).any (fun k => strIncludes lp k)

/-- The specification's fixed evaluation order. -/
def specOrder : List FallbackCategory :=
  [FallbackCategory.projectile, FallbackCategory.spring,
   FallbackCategory.pendulum, FallbackCategory.wave]

/-- The first matching category in the fixed order, if any. -/
def specFirstMatch (lp : String) : Option FallbackCategory :=
  specOrder.find? (specMatches lp)

/-- The fallback response object of each category, and of no match. -/
def categoryFallbackJson : Option FallbackCategory → Json
  | some FallbackCategory.projectile => projectileFallbackJson
  | some FallbackCategory.spring => springFallbackJson
  | some FallbackCategory.pendulum => pendulumFallbackJson
  | some FallbackCategory.wave => waveFallbackJson
  | none => noMatchFallbackJson

/-! ## Motion evaluators

Real-number embedding of the closed-form formulas of the animation
components.
-/

/-- The regime classification of a damping ratio, as displayed by the
spring and pendulum components: strict comparison with 1, then exact
equality with 1. -/
inductive Regime where
  | underdamped : Regime
  | criticallyDamped : Regime
  | overdamped : Regime
deriving DecidableEq

/-- Regime of a damping ratio. -/
noncomputable def regimeOf (z : ℝ) : Regime :=
  if z < 1 then Regime.underdamped
  else if z = 1 then Regime.criticallyDamped
  else Regime.overdamped

/-- `naturalFrequency` of the spring component: `sqrt(k/m)`. -/
noncomputable def springNaturalFrequency (m k : ℝ) : ℝ :=
  Real.sqrt (k / m)

/-- `period` of the spring component: `2π / naturalFrequency`. -/
noncomputable def springPeriod (m k : ℝ) : ℝ :=
  2 * Real.pi / springNaturalFrequency m k

/-- `dampingRatio` of the spring component: `c / (2·sqrt(k·m))`. -/
noncomputable def springDampingRatio (m k c : ℝ) : ℝ :=
  c / (2 * Real.sqrt (k * m))

/-- `getPosition` of the spring component: the three-branch damped
harmonic oscillator solution, branching on the damping ratio. -/
noncomputable def springGetPosition (m k A c time : ℝ) : ℝ :=
  let nf := springNaturalFrequency m k
  let z := springDampingRatio m k c
  if z < 1 then
    A * Real.exp (-z * nf * time) * Real.cos (nf * Real.sqrt (1 - z * z) * time)
  else if z = 1 then
    A * (1 + nf * time) * Real.exp (-nf * time)
  else
    A / 2 * Real.exp (-nf * (z + Real.sqrt (z * z - 1)) * time) +
      A / 2 * Real.exp (-nf * (z - Real.sqrt (z * z - 1)) * time)

/-- `naturalFrequency` of the pendulum component: `sqrt(g/L)`. -/
noncomputable def pendulumNaturalFrequency (g L : ℝ) : ℝ :=
  Real.sqrt (g / L)

/-- `period` of the pendulum component: `2π / naturalFrequency`. -/
noncomputable def pendulumPeriod (g L : ℝ) : ℝ :=
  2 * Real.pi / pendulumNaturalFrequency g L

/-- `dampingRatio` of the pendulum component: `damping / (2·sqrt(g·L))`. -/
noncomputable def pendulumDampingRatio (g L c : ℝ) : ℝ :=
  c / (2 * Real.sqrt (g * L))

/-- `getAngle` of the pendulum component: the same three-branch damped
oscillator solution with initial amplitude `initialAngle·π/180`. -/
noncomputable def pendulumGetAngle (g L angleDeg c time : ℝ) : ℝ :=
  let nf := pendulumNaturalFrequency g L
  let z := pendulumDampingRatio g L c
  let A := angleDeg * Real.pi / 180
  if z < 1 then
    A * Real.exp (-z * nf * time) * Real.cos (nf * Real.sqrt (1 - z * z) * time)
  else if z = 1 then
    A * (1 + nf * time) * Real.exp (-nf * time)
  else
    A / 2 * Real.exp (-nf * (z + Real.sqrt (z * z - 1)) * time) +
      A / 2 * Real.exp (-nf * (z - Real.sqrt (z * z - 1)) * time)

/-- The wave component's two wave kinds. -/
inductive WaveType where
  | transverse : WaveType
  | longitudinal : WaveType
deriving DecidableEq

/-- `angularFrequency` of the wave component: `2π·frequency`. -/
noncomputable def waveAngularFrequency (f : ℝ) : ℝ :=
  2 * Real.pi * f

/-- `waveNumber` of the wave component: `2π / wavelength`. -/
noncomputable def waveNumberOf (wl : ℝ) : ℝ :=
  2 * Real.pi / wl

/-- `getWaveDisplacement` of the wave component: both wave kinds return
`amplitude · sin(waveNumber·x − angularFrequency·t) · exp(−damping·t)`. -/
noncomputable def getWaveDisplacement (f A wl damping : ℝ) (wt : WaveType)
    (x time : ℝ) : ℝ :=
  let phase := waveNumberOf wl * x - waveAngularFrequency f * time
  let dampingFactor := Real.exp (-damping * time)
  match wt with
  | WaveType.transverse => A * Real.sin phase * dampingFactor
  | WaveType.longitudinal => A * Real.sin phase * dampingFactor

/-! ## Projectile motion and its tick loop -/

/-- Horizontal launch speed `vx = velocity · cos(angle·π/180)`. -/
noncomputable def projectileVx (v angle : ℝ) : ℝ :=
  v * Real.cos (angle * Real.pi / 180)

/-- Vertical launch speed `vy = velocity · sin(angle·π/180)`. -/
noncomputable def projectileVy (v angle : ℝ) : ℝ :=
  v * Real.sin (angle * Real.pi / 180)

/-- Horizontal position `x = vx · t`. -/
noncomputable def projectileX (v angle t : ℝ) : ℝ :=
  projectileVx v angle * t

/-- Vertical position `y = vy · t − 0.5 · gravity · t · t`. -/
noncomputable def projectileY (v angle g t : ℝ) : ℝ :=
  projectileVy v angle * t - 0.5 * g * t * t

/-- The animation state the projectile timer mutates: the logical
simulation time and the animating flag. -/
structure SimState where
  time : ℝ
  isAnimating : Bool

/-- One tick of the projectile interval: when animating, compute
`newTime = t + timeStep`; stop (keeping the old time) when the height at
`newTime` is at most zero, advance otherwise; when not animating the
interval is gone and the state does not change. -/
noncomputable def projectileTick (v angle g dt : ℝ) (s : SimState) : SimState :=
  if s.isAnimating then
    if (s.time + dt) * projectileVy v angle - 0.5 * g * (s.time + dt) * (s.time + dt) ≤ 0 then
      { time := s.time, isAnimating := false }
    else
      { time := s.time + dt, isAnimating := true }
  else s

/-! ## Helper lemmas -/

/-- A prefix occurrence is an occurrence. -/
lemma contains_of_prefix (h b : List Char) (hp : isPrefixL b h = true) :
    containsSub h b = true := by
  cases h with
  | nil => simpa [containsSub] using hp
  | cons c t => simp [containsSub, hp]

/-- If `a ++ b` starts `h`, then `b` occurs in `h`. -/
lemma contains_of_prefix_append (a b : List Char) :
    ∀ h, isPrefixL (a ++ b) h = true → containsSub h b = true := by
  induction a with
  | nil => intro h hp; exact contains_of_prefix h b (by simpa using hp)
  | cons x xs ih =>
    intro h hp
    cases h with
    | nil => simp [isPrefixL] at hp
    | cons y t =>
      simp only [List.cons_append, isPrefixL, Bool.and_eq_true] at hp
      have hc := ih t hp.2
      simp [containsSub, hc]

/-- If `a ++ b` occurs in `h`, then `b` occurs in `h`. -/
lemma contains_drop_left (a b : List Char) :
    ∀ h, containsSub h (a ++ b) = true → containsSub h b = true := by
  intro h
  induction h with
  | nil =>
    intro hc
    cases a with
    | nil => simpa using hc
    | cons x xs => simp [containsSub, isPrefixL] at hc
  | cons c t ih =>
    intro hc
    simp only [containsSub, Bool.or_eq_true] at hc
    rcases hc with h1 | h2
    · exact contains_of_prefix_append a b (c :: t) h1
    · simp [containsSub, ih h2]

/-- A prompt containing "simple pendulum" contains "pendulum". -/
lemma strIncludes_simple_pendulum (lp : String)
    (h : strIncludes lp "simple pendulum" = true) :
    strIncludes lp "pendulum" = true := by
  unfold strIncludes at h ⊢
  have e : ("simple pendulum").toList = ("simple ").toList ++ ("pendulum").toList := rfl
  rw [e] at h
  exact contains_drop_left _ _ _ h

/-- The route's projectile condition is the specification's. -/
lemma projectile_pred_eq (lp : String) :
    isProjectileMotionPrompt lp = specMatches lp FallbackCategory.projectile := by
  simp [isProjectileMotionPrompt, specMatches, specKeywords,
    List.any_cons, List.any_nil, Bool.or_assoc, Bool.or_false]

/-- The route's spring condition is the specification's. -/
lemma spring_pred_eq (lp : String) :
    isSpringOscillationPrompt lp = specMatches lp FallbackCategory.spring := by
  simp [isSpringOscillationPrompt, specMatches, specKeywords,
    List.any_cons, List.any_nil, Bool.or_assoc, Bool.or_false]

/-- The route's pendulum condition is the specification's: the source's
extra disjunct "simple pendulum" is subsumed by "pendulum". -/
lemma pendulum_pred_eq (lp : String) :
    isPendulumMotionPrompt lp = specMatches lp FallbackCategory.pendulum := by
  unfold isPendulumMotionPrompt
  simp only [specMatches, specKeywords, List.any_cons, List.any_nil, Bool.or_false]
  cases hsp : strIncludes lp "simple pendulum" with
  | false => simp [hsp, Bool.or_assoc]
  | true =>
    have hp := strIncludes_simple_pendulum lp hsp
    simp [hsp, hp]

/-- The route's wave condition is the specification's. -/
lemma wave_pred_eq (lp : String) :
    isWaveVibrationPrompt lp = specMatches lp FallbackCategory.wave := by
  simp [isWaveVibrationPrompt, specMatches, specKeywords,
    List.any_cons, List.any_nil, Bool.or_assoc, Bool.or_false]

/-- A response body names one module at most. -/
lemma isModule_ne (data : Json) (a b : String) (ha : isModule data a = true)
    (hne : a ≠ b) : isModule data b = false := by
  unfold isModule at ha ⊢
  cases hl : jsonLookup data "module" with
  | none => simp [hl] at ha
  | some j =>
    cases j with
    | null => simp [hl] at ha
    | bool v => simp [hl] at ha
    | num q => simp [hl] at ha
    | arr xs => simp [hl] at ha
    | obj fs => simp [hl] at ha
    | str s =>
      simp only [hl] at ha ⊢
      have hs : s = a := by simpa using ha
      subst hs
      exact beq_eq_false_iff_ne.mpr hne

/-! ## Claims about the chat API route -/

/-- Claim C1, counterexample: with the external model call rejecting
(no reachable service), the prompt "Show me a spring with mass 2kg" does
not reach the keyword fallback; the route returns status 500 with the
fixed error body, whose module is null, not "SpringOscillation". -/
theorem claim1_counterexample :
    POST "Show me a spring with mass 2kg" (Except.error ()) = (500, errorResponseJson) ∧
    jsonLookup errorResponseJson "module" = some Json.null ∧
    Json.null ≠ Json.str "SpringOscillation" := by
  refine ⟨rfl, rfl, ?_⟩
  intro h
  exact Json.noConfusion h

/-- Claim C1 as amended: the keyword fallback runs exactly when the
external call itself succeeds but its text yields no parseable JSON; in
that case the spring prompt produces module "SpringOscillation" with the
documented defaults, while a rejected external call instead produces the
500 error response. -/
theorem claim1_fallback_only_on_parse_failure (text : String)
    (h : parsePipeline text = none) :
    POST "Show me a spring with mass 2kg" (Except.ok text) = (200, springFallbackJson) ∧
    POST "Show me a spring with mass 2kg" (Except.error ()) = (500, errorResponseJson) := by
  constructor
  · simp only [POST, h]
    rfl
  · rfl

/-- Claim C1 witness: a concrete model text with no JSON in it. -/
theorem claim1_witness :
    parsePipeline "The model returned no JSON" = none ∧
    POST "Show me a spring with mass 2kg" (Except.ok "The model returned no JSON") =
      (200, springFallbackJson) :=
  ⟨rfl, (claim1_fallback_only_on_parse_failure "The model returned no JSON" rfl).1⟩

/-- A model response whose module name is none of the four known ones. -/
def quantumText : String :=
  "\x7b\"module\": \"Quantum\", \"inputs\": \x7b\x7d, \"explanation\": \"hi\"\x7d"

/-- Claim C2, counterexample: a returned text whose JSON names the
unknown module "Quantum" is forwarded to the client as-is with status
200 — no shape validation runs and the keyword fallback (which would
classify the prompt "pendulum" as PendulumMotion) is not triggered. -/
theorem claim2_counterexample :
    POST "pendulum" (Except.ok quantumText) =
      (200, Json.obj [("module", Json.str "Quantum"), ("inputs", Json.obj []),
        ("explanation", Json.str "hi")]) ∧
    ("Quantum" ≠ "ProjectileMotion" ∧ "Quantum" ≠ "SpringOscillation" ∧
      "Quantum" ≠ "PendulumMotion" ∧ "Quantum" ≠ "WaveVibration") ∧
    POST "pendulum" (Except.ok quantumText) ≠ (200, fallbackClassify "pendulum") := by
  refine ⟨rfl, by decide, ?_⟩
  intro h
  have h2 : jsonLookup (POST "pendulum" (Except.ok quantumText)).2 "module" =
      jsonLookup (((200 : Nat), fallbackClassify "pendulum") : Nat × Json).2 "module" := by
    rw [h]
  have e1 : jsonLookup (POST "pendulum" (Except.ok quantumText)).2 "module" =
      some (Json.str "Quantum") := rfl
  have e2 : jsonLookup (((200 : Nat), fallbackClassify "pendulum") : Nat × Json).2 "module" =
      some (Json.str "PendulumMotion") := rfl
  rw [e1, e2] at h2
  injection h2 with h3
  injection h3 with h4
  exact absurd h4 (by decide)

/-- Claim C2 as amended: the route takes the greedy brace match of the
returned text (first opening brace through last closing brace), parses
it as JSON, and forwards any successfully parsed value unvalidated. -/
theorem claim2_forward_unvalidated (prompt text : String) (d : Json)
    (h : parsePipeline text = some d) :
    POST prompt (Except.ok text) = (200, d) := by
  simp only [POST, h]

/-- Claim C2 witness: the unvalidated "Quantum" response is forwarded. -/
theorem claim2_witness :
    parsePipeline quantumText =
      some (Json.obj [("module", Json.str "Quantum"), ("inputs", Json.obj []),
        ("explanation", Json.str "hi")]) ∧
    POST "pendulum" (Except.ok quantumText) =
      (200, Json.obj [("module", Json.str "Quantum"), ("inputs", Json.obj []),
        ("explanation", Json.str "hi")]) :=
  ⟨rfl, claim2_forward_unvalidated "pendulum" quantumText _ rfl⟩

/-- Claim C3: the keyword fallback returns the response of the first
matching category in the specification's fixed order Projectile, Spring,
Pendulum, Wave under its case-insensitive keyword sets; a prompt
containing "vibration" (which matches Spring and Wave) is classified as
Spring, and a prompt matching nothing yields the module-null response
with the generic help explanation. -/
theorem claim3_fallback_first_match :
    (∀ p, fallbackClassify p = categoryFallbackJson (specFirstMatch (lowerStr p))) ∧
    fallbackClassify "vibration" = springFallbackJson ∧
    fallbackClassify "xyz unrelated nonsense" = noMatchFallbackJson := by
  refine ⟨?_, rfl, rfl⟩
  intro p
  unfold fallbackClassify specFirstMatch specOrder
  rw [projectile_pred_eq, spring_pred_eq, pendulum_pred_eq, wave_pred_eq]
  cases h1 : specMatches (lowerStr p) FallbackCategory.projectile <;>
    cases h2 : specMatches (lowerStr p) FallbackCategory.spring <;>
      cases h3 : specMatches (lowerStr p) FallbackCategory.pendulum <;>
        cases h4 : specMatches (lowerStr p) FallbackCategory.wave <;>
          simp [List.find?, h1, h2, h3, h4, categoryFallbackJson]

/-- Claim C9: a module response carrying a numeric field equal to 0 has
that field replaced by the documented default, because defaults are
applied with a logical-or against any falsy value: amplitude 0 and
timeStep 0 for a SpringOscillation response become 1 and 0.05, and
gravity 0 for a PendulumMotion response becomes 9.8. -/
theorem claim9_falsy_zero_gets_default (data : Json) :
    (isModule data "SpringOscillation" = true →
      inputField data "amplitude" = some (Json.num 0) →
      ∃ md, handleSendModuleData data = some md ∧
        lookupInput md "amplitude" = some (Json.num 1)) ∧
    (isModule data "SpringOscillation" = true →
      inputField data "timeStep" = some (Json.num 0) →
      ∃ md, handleSendModuleData data = some md ∧
        lookupInput md "timeStep" = some (Json.num 0.05)) ∧
    (isModule data "PendulumMotion" = true →
      inputField data "gravity" = some (Json.num 0) →
      ∃ md, handleSendModuleData data = some md ∧
        lookupInput md "gravity" = some (Json.num 9.8)) := by
  refine ⟨?_, ?_, ?_⟩
  · intro hmod hf
    have hproj : isModule data "ProjectileMotion" = false :=
      isModule_ne data "SpringOscillation" "ProjectileMotion" hmod (by decide)
    have hout : handleSendModuleData data = some ⟨"SpringOscillation",
        [("mass", jsOr (inputField data "mass") (Json.num 1)),
         ("springConstant", jsOr (inputField data "springConstant") (Json.num 10)),
         ("amplitude", jsOr (inputField data "amplitude") (Json.num 1)),
         ("damping", jsOr (inputField data "damping") (Json.num 0)),
         ("timeStep", jsOr (inputField data "timeStep") (Json.num 0.05))]⟩ := by
      simp [handleSendModuleData, hproj, hmod]
    exact ⟨_, hout, by simp [lookupInput, List.find?, hf, jsOr, jsTruthy]⟩
  · intro hmod hf
    have hproj : isModule data "ProjectileMotion" = false :=
      isModule_ne data "SpringOscillation" "ProjectileMotion" hmod (by decide)
    have hout : handleSendModuleData data = some ⟨"SpringOscillation",
        [("mass", jsOr (inputField data "mass") (Json.num 1)),
         ("springConstant", jsOr (inputField data "springConstant") (Json.num 10)),
         ("amplitude", jsOr (inputField data "amplitude") (Json.num 1)),
         ("damping", jsOr (inputField data "damping") (Json.num 0)),
         ("timeStep", jsOr (inputField data "timeStep") (Json.num 0.05))]⟩ := by
      simp [handleSendModuleData, hproj, hmod]
    exact ⟨_, hout, by simp [lookupInput, List.find?, hf, jsOr, jsTruthy]⟩
  · intro hmod hf
    have hproj : isModule data "ProjectileMotion" = false :=
      isModule_ne data "PendulumMotion" "ProjectileMotion" hmod (by decide)
    have hspring : isModule data "SpringOscillation" = false :=
      isModule_ne data "PendulumMotion" "SpringOscillation" hmod (by decide)
    have hout : handleSendModuleData data = some ⟨"PendulumMotion",
        [("length", jsOr (inputField data "length") (Json.num 1)),
         ("mass", jsOr (inputField data "mass") (Json.num 1)),
         ("initialAngle", jsOr (inputField data "initialAngle") (Json.num 30)),
         ("gravity", jsOr (inputField data "gravity") (Json.num 9.8)),
         ("damping", jsOr (inputField data "damping") (Json.num 0)),
         ("timeStep", jsOr (inputField data "timeStep") (Json.num 0.05))]⟩ := by
      simp [handleSendModuleData, hproj, hspring, hmod]
    exact ⟨_, hout, by simp [lookupInput, List.find?, hf, jsOr, jsTruthy]⟩

/-- Claim C9 witness: a concrete spring response with amplitude 0 mounts
the spring animation with the default amplitude 1. -/
theorem claim9_witness :
    isModule (Json.obj [("module", Json.str "SpringOscillation"),
        ("inputs", Json.obj [("amplitude", Json.num 0)]),
        ("explanation", Json.str "ok")]) "SpringOscillation" = true ∧
    inputField (Json.obj [("module", Json.str "SpringOscillation"),
        ("inputs", Json.obj [("amplitude", Json.num 0)]),
        ("explanation", Json.str "ok")]) "amplitude" = some (Json.num 0) ∧
    ∃ md, handleSendModuleData (Json.obj [("module", Json.str "SpringOscillation"),
        ("inputs", Json.obj [("amplitude", Json.num 0)]),
        ("explanation", Json.str "ok")]) = some md ∧
      lookupInput md "amplitude" = some (Json.num 1) :=
  ⟨rfl, rfl,
    (claim9_falsy_zero_gets_default (Json.obj [("module", Json.str "SpringOscillation"),
        ("inputs", Json.obj [("amplitude", Json.num 0)]),
        ("explanation", Json.str "ok")])).1 rfl rfl⟩

/-! ## Specification-side oscillator formulas

The specification's three-branch damped-oscillator solution, written from
its words and compared with the source-derived evaluators.
-/

/-- Specification formula for the underdamped branch:
`X₀ · exp(−ζ·ω₀·t) · cos(ω_d·t)` with `ω_d = ω₀·sqrt(1−ζ²)`. -/
noncomputable def specUnderdampedX (X0 z w0 t : ℝ) : ℝ :=
  X0 * Real.exp (-z * w0 * t) * Real.cos (w0 * Real.sqrt (1 - z ^ 2) * t)

/-- Specification formula for the critically damped branch:
`X₀ · (1 + ω₀·t) · exp(−ω₀·t)`. -/
noncomputable def specCriticalX (X0 w0 t : ℝ) : ℝ :=
  X0 * (1 + w0 * t) * Real.exp (-w0 * t)

/-- Specification formula for the overdamped branch:
`c₁·exp(α₁t) + c₂·exp(α₂t)` with `α₁,₂ = −ω₀(ζ ∓ sqrt(ζ²−1))` and
`c₁ = c₂ = X₀/2`. -/
noncomputable def specOverdampedX (X0 z w0 t : ℝ) : ℝ :=
  X0 / 2 * Real.exp (-w0 * (z - Real.sqrt (z ^ 2 - 1)) * t) +
    X0 / 2 * Real.exp (-w0 * (z + Real.sqrt (z ^ 2 - 1)) * t)

/-! ## Claims about the motion evaluators -/

/-- Claim C4: with strictly positive mass, spring constant, gravity and
length, zero damping gives damping ratio 0, hence the underdamped
regime; for the spring, damping exactly `2·sqrt(k·m)` gives damping
ratio exactly 1 and selects the critically damped branch of the exact
equality test. -/
theorem claim4_regime_boundaries (m k g L : ℝ) (hm : 0 < m) (hk : 0 < k)
    (hg : 0 < g) (hL : 0 < L) :
    springDampingRatio m k 0 = 0 ∧
    regimeOf (springDampingRatio m k 0) = Regime.underdamped ∧
    pendulumDampingRatio g L 0 = 0 ∧
    regimeOf (pendulumDampingRatio g L 0) = Regime.underdamped ∧
    springDampingRatio m k (2 * Real.sqrt (k * m)) = 1 ∧
    regimeOf (springDampingRatio m k (2 * Real.sqrt (k * m))) = Regime.criticallyDamped := by
  have hs : (0 : ℝ) < Real.sqrt (k * m) := Real.sqrt_pos.mpr (mul_pos hk hm)
  have hz0 : springDampingRatio m k 0 = 0 := by simp [springDampingRatio]
  have hz0p : pendulumDampingRatio g L 0 = 0 := by simp [pendulumDampingRatio]
  have hz1 : springDampingRatio m k (2 * Real.sqrt (k * m)) = 1 := by
    unfold springDampingRatio
    exact div_self (by positivity)
  refine ⟨hz0, ?_, hz0p, ?_, hz1, ?_⟩
  · rw [hz0]; norm_num [regimeOf]
  · rw [hz0p]; norm_num [regimeOf]
  · rw [hz1]; norm_num [regimeOf]

/-- Claim C4 witness: concrete positive parameters. -/
theorem claim4_witness :
    ((0 : ℝ) < 1 ∧ (0 : ℝ) < 10 ∧ (0 : ℝ) < 9.8 ∧ (0 : ℝ) < 2) ∧
    (springDampingRatio 1 10 0 = 0 ∧
     regimeOf (springDampingRatio 1 10 0) = Regime.underdamped ∧
     pendulumDampingRatio 9.8 2 0 = 0 ∧
     regimeOf (pendulumDampingRatio 9.8 2 0) = Regime.underdamped ∧
     springDampingRatio 1 10 (2 * Real.sqrt (10 * 1)) = 1 ∧
     regimeOf (springDampingRatio 1 10 (2 * Real.sqrt (10 * 1))) = Regime.criticallyDamped) :=
  ⟨⟨by norm_num, by norm_num, by norm_num, by norm_num⟩,
   claim4_regime_boundaries 1 10 9.8 2 (by norm_num) (by norm_num) (by norm_num) (by norm_num)⟩

/-- Claim C5: the spring displacement and the pendulum angle follow the
specification's three-branch damped-oscillator solution on the damping
ratio, with X₀ the configured amplitude for the spring and the initial
angle converted to radians for the pendulum. -/
theorem claim5_damped_oscillator_branches (m k A g L angleDeg c t : ℝ) :
    (springDampingRatio m k c < 1 →
      springGetPosition m k A c t =
        specUnderdampedX A (springDampingRatio m k c) (springNaturalFrequency m k) t) ∧
    (springDampingRatio m k c = 1 →
      springGetPosition m k A c t = specCriticalX A (springNaturalFrequency m k) t) ∧
    (1 < springDampingRatio m k c →
      springGetPosition m k A c t =
        specOverdampedX A (springDampingRatio m k c) (springNaturalFrequency m k) t) ∧
    (pendulumDampingRatio g L c < 1 →
      pendulumGetAngle g L angleDeg c t =
        specUnderdampedX (angleDeg * Real.pi / 180) (pendulumDampingRatio g L c)
          (pendulumNaturalFrequency g L) t) ∧
    (pendulumDampingRatio g L c = 1 →
      pendulumGetAngle g L angleDeg c t =
        specCriticalX (angleDeg * Real.pi / 180) (pendulumNaturalFrequency g L) t) ∧
    (1 < pendulumDampingRatio g L c →
      pendulumGetAngle g L angleDeg c t =
        specOverdampedX (angleDeg * Real.pi / 180) (pendulumDampingRatio g L c)
          (pendulumNaturalFrequency g L) t) := by
  refine ⟨?_, ?_, ?_, ?_, ?_, ?_⟩
  · intro h
    simp only [springGetPosition, specUnderdampedX]
    rw [if_pos h, pow_two]
  · intro h
    simp only [springGetPosition, specCriticalX]
    rw [if_neg (by rw [h]; exact lt_irrefl 1), if_pos h]
  · intro h
    simp only [springGetPosition, specOverdampedX]
    rw [if_neg (not_lt.mpr h.le), if_neg (ne_of_gt h), pow_two]
    exact add_comm _ _
  · intro h
    simp only [pendulumGetAngle, specUnderdampedX]
    rw [if_pos h, pow_two]
  · intro h
    simp only [pendulumGetAngle, specCriticalX]
    rw [if_neg (by rw [h]; exact lt_irrefl 1), if_pos h]
  · intro h
    simp only [pendulumGetAngle, specOverdampedX]
    rw [if_neg (not_lt.mpr h.le), if_neg (ne_of_gt h), pow_two]
    exact add_comm _ _

/-- Claim C5 witness: the undamped spring and pendulum are underdamped
and follow the underdamped formula. -/
theorem claim5_witness :
    springDampingRatio 1 10 0 < 1 ∧
    springGetPosition 1 10 1 0 1 =
      specUnderdampedX 1 (springDampingRatio 1 10 0) (springNaturalFrequency 1 10) 1 ∧
    pendulumDampingRatio 9.8 1 0 < 1 ∧
    pendulumGetAngle 9.8 1 30 0 1 =
      specUnderdampedX (30 * Real.pi / 180) (pendulumDampingRatio 9.8 1 0)
        (pendulumNaturalFrequency 9.8 1) 1 :=
  ⟨by norm_num [springDampingRatio],
   (claim5_damped_oscillator_branches 1 10 1 9.8 1 30 0 1).1
     (by norm_num [springDampingRatio]),
   by norm_num [pendulumDampingRatio],
   (claim5_damped_oscillator_branches 1 10 1 9.8 1 30 0 1).2.2.2.1
     (by norm_num [pendulumDampingRatio])⟩

/-- At the default wave parameters the displacement at the left end of
the medium is a pure sine of time. -/
lemma wave_default_disp (A t : ℝ) (wt : WaveType) :
    getWaveDisplacement 1 A 2 0 wt 0 t = A * Real.sin (-(2 * Real.pi * t)) := by
  cases wt <;>
    simp [getWaveDisplacement, waveNumberOf, waveAngularFrequency]

/-- Claim C6: with frequency 1, wavelength 2 and damping 0 the wave
displacement at position 0 is 1-periodic in time, bounded in absolute
value by the configured amplitude, and 1 is the exact period: no
`p ∈ (0,1)` is a period of a nonzero-amplitude wave. -/
theorem claim6_wave_period_and_bound (A t p : ℝ) (wt : WaveType)
    (hA : 0 ≤ A) (hA0 : A ≠ 0) (hp0 : 0 < p) (hp1 : p < 1) :
    getWaveDisplacement 1 A 2 0 wt 0 (t + 1) = getWaveDisplacement 1 A 2 0 wt 0 t ∧
    |getWaveDisplacement 1 A 2 0 wt 0 t| ≤ A ∧
    getWaveDisplacement 1 A 2 0 wt 0 (-(p / 2) + p) ≠
      getWaveDisplacement 1 A 2 0 wt 0 (-(p / 2)) := by
  refine ⟨?_, ?_, ?_⟩
  · rw [wave_default_disp, wave_default_disp]
    have e : -(2 * Real.pi * (t + 1)) = -(2 * Real.pi * t) - 2 * Real.pi := by ring
    rw [e, Real.sin_sub_two_pi]
  · rw [wave_default_disp]
    calc |A * Real.sin (-(2 * Real.pi * t))|
        = |A| * |Real.sin (-(2 * Real.pi * t))| := abs_mul _ _
      _ ≤ |A| * 1 := by
          refine mul_le_mul_of_nonneg_left ?_ (abs_nonneg A)
          exact abs_le.mpr ⟨Real.neg_one_le_sin _, Real.sin_le_one _⟩
      _ = A := by rw [mul_one, abs_of_nonneg hA]
  · rw [wave_default_disp, wave_default_disp]
    have e1 : -(2 * Real.pi * (-(p / 2) + p)) = -(Real.pi * p) := by ring
    have e2 : -(2 * Real.pi * (-(p / 2))) = Real.pi * p := by ring
    rw [e1, e2, Real.sin_neg]
    intro h
    rw [mul_neg] at h
    have hAs : A * Real.sin (Real.pi * p) = 0 := by linarith
    have hsin : Real.sin (Real.pi * p) = 0 := by
      rcases mul_eq_zero.mp hAs with h' | h'
      · exact absurd h' hA0
      · exact h'
    have hlt : Real.pi * p < Real.pi := by
      have h2 := (mul_lt_mul_left Real.pi_pos).mpr hp1
      simpa using h2
    have hpos : 0 < Real.sin (Real.pi * p) :=
      Real.sin_pos_of_pos_of_lt_pi (by positivity) hlt
    exact absurd hsin (ne_of_gt hpos)

/-- Claim C6 witness: amplitude 1 and candidate period 1/2. -/
theorem claim6_witness :
    getWaveDisplacement 1 1 2 0 WaveType.transverse 0 (0 + 1) =
      getWaveDisplacement 1 1 2 0 WaveType.transverse 0 0 ∧
    |getWaveDisplacement 1 1 2 0 WaveType.transverse 0 0| ≤ 1 ∧
    getWaveDisplacement 1 1 2 0 WaveType.transverse 0 (-(1 / 2 / 2) + 1 / 2) ≠
      getWaveDisplacement 1 1 2 0 WaveType.transverse 0 (-(1 / 2 / 2)) :=
  claim6_wave_period_and_bound 1 0 (1 / 2) WaveType.transverse
    (by norm_num) (by norm_num) (by norm_num) (by norm_num)

/-- Claim C7: the projectile follows the undamped closed-form kinematics
`x(t) = v·cos(θ)·t`, `y(t) = v·sin(θ)·t − ½·g·t²` (θ in degrees,
converted to radians); a tick taken when the height at the advanced time
is not positive stops the animation keeping the old time, and once
stopped every further tick leaves the state unchanged. -/
theorem claim7_projectile_kinematics_halt (v angle g dt time t : ℝ)
    (hy : projectileY v angle g (time + dt) ≤ 0) :
    projectileX v angle t = v * Real.cos (angle * Real.pi / 180) * t ∧
    projectileY v angle g t = v * Real.sin (angle * Real.pi / 180) * t - g * t ^ 2 / 2 ∧
    projectileTick v angle g dt ⟨time, true⟩ = ⟨time, false⟩ ∧
    ∀ n, (projectileTick v angle g dt)^[n] ⟨time, false⟩ = ⟨time, false⟩ := by
  refine ⟨rfl, by unfold projectileY projectileVy; ring, ?_, ?_⟩
  · have e : (time + dt) * projectileVy v angle -
        0.5 * g * (time + dt) * (time + dt) ≤ 0 := by
      have e2 : (time + dt) * projectileVy v angle -
          0.5 * g * (time + dt) * (time + dt) = projectileY v angle g (time + dt) := by
        unfold projectileY; ring
      rw [e2]; exact hy
    unfold projectileTick
    rw [if_pos (show (⟨time, true⟩ : SimState).isAnimating = true from rfl), if_pos e]
  · intro n
    induction n with
    | zero => rfl
    | succ n ih =>
      rw [Function.iterate_succ_apply', ih]
      unfold projectileTick
      rw [if_neg (show ¬((⟨time, false⟩ : SimState).isAnimating = true) from by simp)]

/-- Claim C7 witness: with zero velocity and zero gravity the first tick
already finds the height not positive and stops. -/
theorem claim7_witness :
    projectileY 0 0 0 (0 + 1) ≤ 0 ∧
    (projectileX 0 0 0 = 0 * Real.cos (0 * Real.pi / 180) * 0 ∧
     projectileY 0 0 0 0 = 0 * Real.sin (0 * Real.pi / 180) * 0 - 0 * 0 ^ 2 / 2 ∧
     projectileTick 0 0 0 1 ⟨0, true⟩ = ⟨0, false⟩ ∧
     ∀ n, (projectileTick 0 0 0 1)^[n] ⟨0, false⟩ = ⟨0, false⟩) :=
  ⟨by norm_num [projectileY, projectileVy],
   claim7_projectile_kinematics_halt 0 0 0 1 0 0
     (by norm_num [projectileY, projectileVy])⟩

/-- The reported period is never the damped period while `0 < ζ < 1`. -/
lemma period_ne_damped (w z : ℝ) (hw : 0 < w) (hz0 : 0 < z) (hz1 : z < 1) :
    2 * Real.pi / w ≠ 2 * Real.pi / (w * Real.sqrt (1 - z * z)) := by
  have h1 : (0 : ℝ) < 1 - z * z := by nlinarith
  have hs0 : 0 < Real.sqrt (1 - z * z) := Real.sqrt_pos.mpr h1
  have hs1 : Real.sqrt (1 - z * z) < 1 := by
    have h2 : 1 - z * z < 1 := by nlinarith
    calc Real.sqrt (1 - z * z) < Real.sqrt 1 := Real.sqrt_lt_sqrt h1.le h2
      _ = 1 := Real.sqrt_one
  have hlt : w * Real.sqrt (1 - z * z) < w := by
    calc w * Real.sqrt (1 - z * z) < w * 1 := mul_lt_mul_of_pos_left hs1 hw
      _ = w := mul_one w
  have h2pi : (0 : ℝ) < 2 * Real.pi := by positivity
  exact ne_of_lt (div_lt_div_of_pos_left h2pi (mul_pos hw hs0) hlt)

/-- Claim C8: the spring and pendulum evaluators report the period
`2π/ω₀` computed from the undamped natural frequency (the period does
not depend on the damping input at all), and for `0 < ζ < 1` it differs
from the damped period `2π/(ω₀·sqrt(1−ζ²))`. -/
theorem claim8_period_natural_frequency (m k g L c : ℝ) (hm : 0 < m) (hk : 0 < k)
    (hg : 0 < g) (hL : 0 < L) (hc : 0 < c)
    (hzs : springDampingRatio m k c < 1) (hzp : pendulumDampingRatio g L c < 1) :
    springPeriod m k = 2 * Real.pi / springNaturalFrequency m k ∧
    pendulumPeriod g L = 2 * Real.pi / pendulumNaturalFrequency g L ∧
    springPeriod m k ≠ 2 * Real.pi / (springNaturalFrequency m k *
      Real.sqrt (1 - springDampingRatio m k c * springDampingRatio m k c)) ∧
    pendulumPeriod g L ≠ 2 * Real.pi / (pendulumNaturalFrequency g L *
      Real.sqrt (1 - pendulumDampingRatio g L c * pendulumDampingRatio g L c)) := by
  have hws : 0 < springNaturalFrequency m k := Real.sqrt_pos.mpr (div_pos hk hm)
  have hwp : 0 < pendulumNaturalFrequency g L := Real.sqrt_pos.mpr (div_pos hg hL)
  have hzs0 : 0 < springDampingRatio m k c := div_pos hc (by positivity)
  have hzp0 : 0 < pendulumDampingRatio g L c := div_pos hc (by positivity)
  exact ⟨rfl, rfl, period_ne_damped _ _ hws hzs0 hzs,
    period_ne_damped _ _ hwp hzp0 hzp⟩

/-- Claim C8 witness: unit parameters with damping 1 give ζ = 1/2. -/
theorem claim8_witness :
    ((0 : ℝ) < 1 ∧ springDampingRatio 1 1 1 < 1 ∧ pendulumDampingRatio 1 1 1 < 1) ∧
    (springPeriod 1 1 = 2 * Real.pi / springNaturalFrequency 1 1 ∧
     pendulumPeriod 1 1 = 2 * Real.pi / pendulumNaturalFrequency 1 1 ∧
     springPeriod 1 1 ≠ 2 * Real.pi / (springNaturalFrequency 1 1 *
       Real.sqrt (1 - springDampingRatio 1 1 1 * springDampingRatio 1 1 1)) ∧
     pendulumPeriod 1 1 ≠ 2 * Real.pi / (pendulumNaturalFrequency 1 1 *
       Real.sqrt (1 - pendulumDampingRatio 1 1 1 * pendulumDampingRatio 1 1 1))) :=
  ⟨⟨by norm_num, by norm_num [springDampingRatio, Real.sqrt_one],
    by norm_num [pendulumDampingRatio, Real.sqrt_one]⟩,
   claim8_period_natural_frequency 1 1 1 1 1 (by norm_num) (by norm_num) (by norm_num)
     (by norm_num) (by norm_num)
     (by norm_num [springDampingRatio, Real.sqrt_one])
     (by norm_num [pendulumDampingRatio, Real.sqrt_one])⟩

/-- Claim C10: every tick of an animating projectile either advances the
time by the time step (when the height at the advanced time is still
positive) or stops leaving the time unchanged; consequently in every
state reachable by ticking from time 0 the computed height is
nonnegative. -/
theorem claim10_height_invariant (v angle g dt : ℝ) :
    (∀ time, (projectileTick v angle g dt ⟨time, true⟩ = ⟨time + dt, true⟩ ∧
        0 < projectileY v angle g (time + dt)) ∨
      (projectileTick v angle g dt ⟨time, true⟩ = ⟨time, false⟩ ∧
        projectileY v angle g (time + dt) ≤ 0)) ∧
    ∀ n, 0 ≤ projectileY v angle g
      (((projectileTick v angle g dt)^[n]) ⟨0, true⟩).time := by
  have key : ∀ time, ((time + dt) * projectileVy v angle -
      0.5 * g * (time + dt) * (time + dt)) = projectileY v angle g (time + dt) := by
    intro time; unfold projectileY; ring
  constructor
  · intro time
    by_cases hc : (time + dt) * projectileVy v angle -
        0.5 * g * (time + dt) * (time + dt) ≤ 0
    · right
      constructor
      · unfold projectileTick
        rw [if_pos (show (⟨time, true⟩ : SimState).isAnimating = true from rfl),
          if_pos hc]
      · rw [← key]; exact hc
    · left
      constructor
      · unfold projectileTick
        rw [if_pos (show (⟨time, true⟩ : SimState).isAnimating = true from rfl),
          if_neg hc]
      · rw [← key]; exact lt_of_not_le hc
  · intro n
    induction n with
    | zero =>
      show 0 ≤ projectileY v angle g 0
      unfold projectileY
      norm_num
    | succ n ih =>
      rw [Function.iterate_succ_apply']
      set s := ((projectileTick v angle g dt)^[n]) ⟨0, true⟩ with hs
      cases hb : s.isAnimating
      · unfold projectileTick
        rw [if_neg (by rw [hb]; simp)]
        exact ih
      · unfold projectileTick
        rw [if_pos hb]
        by_cases hc : (s.time + dt) * projectileVy v angle -
            0.5 * g * (s.time + dt) * (s.time + dt) ≤ 0
        · rw [if_pos hc]
          exact ih
        · rw [if_neg hc]
          have h2 : 0 < projectileY v angle g (s.time + dt) := by
            rw [← key]; exact lt_of_not_le hc
          exact h2.le

end OBA
